import Mathlib

/-!
Verification of the lovelace-engine submission pipeline (`engine/api.py`)
against its natural-language specification.

The embedding below renders `SubmitResource.on_post`, `write_code_to_file`
and the per-case evaluation loop as pure Lean functions.  Python exceptions
are rendered as `Except` errors; the host filesystem side effects that
matter to the spec (files staged by `shutil.copyfile` / `util.write_str_to_file`
and removed by `util.delete_file` / `os.remove`) are tracked explicitly as
the list of staged paths still on disk when the handler exits.  External
collaborators (the base64 decoder, `util.write_str_to_file`, the problem
registry reachable through `importlib`, and the runner layer) are modelled
as components of an `Env` record, as the spec declares them out of scope.
-/

/-- One entry of a problem's `TEST_CASE_TYPE_ENUM`: a named category of
inputs together with how many cases of it to generate (`multiplicity`). -/
structure TestCaseType where
  test_name : String
  multiplicity : Nat
deriving Repr, DecidableEq

/-- A Python dict with string keys and string values, as an association list
(sufficient for the fields the pipeline reads, e.g. `dataset_filename`). -/
abbrev Dict := List (String × String)

/-- A generated test case as produced by `problem.generate_input`:
the originating type, the structured input dict, the reference output dict,
and the rendered input tuple handed to the runner (`tc.input_tuple()`). -/
structure TestCase where
  test_type : TestCaseType
  input : Dict
  output : Dict
  inputTuple : List String
deriving Repr, DecidableEq

/-- The per-case detail dict appended at `api.py` lines 124-132. -/
structure CaseDetail where
  testCaseType : String
  inputString : String
  outputString : String
  inputDict : Dict
  outputDict : Dict
  passed : Bool
  processInfo : String
deriving Repr, DecidableEq

/-- The response dict built at `api.py` lines 136-141. -/
structure Response where
  success : Bool
  numTestCases : Nat
  numTestCasesPassed : Nat
  testCaseDetails : List CaseDetail
deriving Repr, DecidableEq

/-- Python exceptions that can escape the pipeline, rendered as data:
`keyError` from `payload[...]` lookups, `httpError` for
`falcon.HTTPError(status, title, description)`, `osError` for a failed
`shutil.copyfile`, `binasciiError` for an invalid base64 payload, and
runner / verifier exceptions from the external calls in the case loop. -/
inductive PyErr where
  | keyError (key : String)
  | httpError (status : String) (title : String) (description : String)
  | osError (path : String)
  | binasciiError (msg : String)
  | runnerError (msg : String)
  | verifierError (msg : String)
deriving Repr, DecidableEq

/-- The runner classes available in the codebase's `engine.runners`
namespace; `api.py` imports only `PythonRunner`. -/
inductive RunnerKind where
  | python
  | javascript
  | julia
  | c
deriving Repr, DecidableEq

/-- A problem plug-in module as surfaced by `importlib.import_module`:
its `TEST_CASE_TYPE_ENUM` table, `RESOURCES` manifest, `generate_input`
(which consumes ambient generator state of type `Nat`, standing for the
Python `random` module's hidden global state, since no seed argument is
passed at the call site) and `verify_user_solution` (which may raise). -/
structure Problem where
  TEST_CASE_TYPE_ENUM : List TestCaseType
  RESOURCES : List String
  generate_input : TestCaseType → Nat → TestCase × Nat
  verify_user_solution : List String → String → Except String Bool

/-- The external collaborators of `on_post`:
`b64decode` (the base64 library), `write_str_to_file` (from `engine.util`,
returning the staged code filename for given contents and extension),
`copy_ok` (whether `shutil.copyfile from to` succeeds), `problems`
(the modules importable under `problems.<name>`), `runners` (the result
of `<Runner>().run(container, filename, input_tuple)`, i.e. the pair
`(user_answer, process_info)`, or a raised exception), and `rng0`, the
ambient generator state at the time the request is handled. -/
structure Env where
  b64decode : String → Except String String
  write_str_to_file : String → Option String → String
  copy_ok : String → String → Bool
  problems : String → Option Problem
  runners : RunnerKind → String → String → List String → Except String (String × String)
  rng0 : Nat

/-- The module-level `cwd` of `api.py` (directory of the source file). -/
def cwd : String := "/engine"

/-- `os.path.join` restricted to the two-argument joins the pipeline uses. -/
def pjoin (a b : String) : String := a ++ "/" ++ b

/-- Characters of the final `/`-separated component of a character list;
`acc` holds the characters of the current component in reverse. -/
def basenameAux : List Char → List Char → List Char
  | [], acc => acc.reverse
  | c :: rest, acc =>
    if c = '/' then basenameAux rest [] else basenameAux rest (c :: acc)

/-- `os.path.basename`: the final `/`-separated component of a path. -/
def os_basename (p : String) : String :=
  String.mk (basenameAux p.data [])

/-- Python `str.replace('-', '_')` as used to normalise problem keys. -/
def normalizeProblemKey (s : String) : String :=
  String.mk (s.data.map (fun c => if c = '-' then '_' else c))

/-- Rendering of `str(input_tuple)` for the `inputString` field. -/
def strTuple (t : List String) : String :=
  "(" ++ String.intercalate ", " t ++ ")"

/-- The runner class instantiated at `api.py` line 106.  The source calls
`PythonRunner().run(...)` unconditionally: no language dispatch occurs,
whatever the submission's language tag. -/
def runnerFor (_language : String) : RunnerKind := RunnerKind.python

/-- `write_code_to_file(code, language)` (`api.py` lines 172-189):
raise HTTP 400 when the code string is falsy, otherwise decode the base64
payload, pick the extension from the `{python3: .py}` table and write the
decoded source to a fresh file, returning its name. -/
def write_code_to_file (env : Env) (code : String) (language : String) :
    Except PyErr String :=
  if code = "" then
    Except.error (PyErr.httpError "400 Bad Request" "Invalid JSON."
      "No code provided in request.")
  else
    match env.b64decode code with
    | Except.error msg => Except.error (PyErr.binasciiError msg)
    | Except.ok decoded_code =>
      let extension := if language = "python3" then some ".py" else none
      Except.ok (env.write_str_to_file decoded_code extension)

/-- The resource-staging loop of `api.py` lines 67-76: copy each file named
in `problem.RESOURCES` from `resources/<problem_dir>/` next to the engine,
appending each destination to the cleanup list; a failed copy raises
OSError with the cleanup list as staged so far. -/
def stageResources (env : Env) (problem_dir : String) :
    List String → List String → Except (PyErr × List String) (List String)
  | [], acc => Except.ok acc
  | name :: rest, acc =>
    let from_path := pjoin (pjoin (pjoin (pjoin cwd "..") "resources") problem_dir) name
    let to_path := pjoin cwd name
    if env.copy_ok from_path to_path then
      stageResources env problem_dir rest (acc ++ [to_path])
    else
      Except.error (PyErr.osError from_path, acc)

/-- The inner generation loop of `api.py` lines 81-84: call
`problem.generate_input(test_type)` `multiplicity` times in order,
threading the ambient generator state. -/
def genRep (gen : TestCaseType → Nat → TestCase × Nat) (t : TestCaseType) :
    Nat → Nat → List TestCase × Nat
  | 0, s => ([], s)
  | Nat.succ k, s =>
    let (tc, s1) := gen t s
    let (rest, s2) := genRep gen t k s1
    (tc :: rest, s2)

/-- The generation phase of `api.py` lines 79-84: traverse the test case
type table in order, generating `multiplicity` cases per type into one
ordered list. -/
def generateTestCases (gen : TestCaseType → Nat → TestCase × Nat) :
    List TestCaseType → Nat → List TestCase × Nat
  | [], s => ([], s)
  | t :: rest, s =>
    let (cs, s1) := genRep gen t t.multiplicity s
    let (css, s2) := generateTestCases gen rest s1
    (cs ++ css, s2)

/-- Mutable state of the per-case loop: the cleanup list `resources`
(paths staged on disk), `num_passes`, and `test_case_details`. -/
structure LoopState where
  staged : List String
  num_passes : Nat
  details : List CaseDetail
deriving Repr, DecidableEq

/-- The on-demand staging step at the top of each loop iteration
(`api.py` lines 91-101): when the case input carries a truthy
`dataset_filename`, copy that file from the shared `resources/` directory
next to the engine and register the destination in the cleanup list; a
failed copy raises OSError. -/
def stageOnDemand (env : Env) (tc : TestCase) (st : LoopState) :
    Except (PyErr × LoopState) LoopState :=
  match tc.input.lookup "dataset_filename" with
  | some r =>
    if r = "" then Except.ok st
    else
      let resource_path := pjoin (pjoin (pjoin cwd "..") "resources") r
      let destination_path := pjoin cwd (os_basename resource_path)
      if env.copy_ok resource_path destination_path then
        Except.ok { st with staged := st.staged ++ [destination_path] }
      else
        Except.error (PyErr.osError resource_path, st)
  | none => Except.ok st

/-- One iteration of the case loop (`api.py` lines 90-132) for test case
`tc`: stage the on-demand `dataset_filename` resource when the input names
one (a failed copy raises OSError), run the user's code through the runner,
apply the verifier to the input tuple and the user's answer (either call
may raise, aborting the iteration), then record the detail dict.
`run` is the runner invocation with container and code filename applied;
`verify` is `problem.verify_user_solution`.  A raised exception carries the
loop state at the raise point. -/
def runCase (env : Env)
    (run : List String → Except String (String × String))
    (verify : List String → String → Except String Bool)
    (tc : TestCase) (st : LoopState) :
    Except (PyErr × LoopState) LoopState :=
  match stageOnDemand env tc st with
  | Except.error e => Except.error e
  | Except.ok st1 =>
    let input_tuple := tc.inputTuple
    match run input_tuple with
    | Except.error msg => Except.error (PyErr.runnerError msg, st1)
    | Except.ok (user_answer, process_info) =>
      match verify input_tuple user_answer with
      | Except.error msg => Except.error (PyErr.verifierError msg, st1)
      | Except.ok passed =>
        let num_passes := if passed then st1.num_passes + 1 else st1.num_passes
        let detail : CaseDetail :=
          { testCaseType := tc.test_type.test_name
            inputString := strTuple input_tuple
            outputString := user_answer
            inputDict := tc.input
            outputDict := tc.output
            passed := passed
            processInfo := process_info }
        Except.ok
          { staged := st1.staged
            num_passes := num_passes
            details := st1.details ++ [detail] }

/-- The whole case loop: fold `runCase` over the generated cases in order. -/
def runCases (env : Env)
    (run : List String → Except String (String × String))
    (verify : List String → String → Except String Bool) :
    List TestCase → LoopState → Except (PyErr × LoopState) LoopState
  | [], st => Except.ok st
  | tc :: rest, st =>
    match runCase env run verify tc st with
    | Except.error e => Except.error e
    | Except.ok st1 => runCases env run verify rest st1

/-- `SubmitResource.on_post` (`api.py` lines 47-152), given the request
payload as a dict.  The result pairs the handler's outcome — the JSON
response, or the Python exception that escaped — with the list of staged
file paths still on the host filesystem when the handler exits.  The
cleanup pass (lines 147-152) runs only when control reaches it. -/
def on_post (env : Env) (container_name : String) (payload : Dict) :
    Except PyErr Response × List String :=
  match payload.lookup "code" with
  | none => (Except.error (PyErr.keyError "code"), [])
  | some code =>
    match payload.lookup "language" with
    | none => (Except.error (PyErr.keyError "language"), [])
    | some language =>
      match write_code_to_file env code language with
      | Except.error e => (Except.error e, [])
      | Except.ok code_filename =>
        match payload.lookup "problem" with
        | none => (Except.error (PyErr.keyError "problem"), [code_filename])
        | some problemKey =>
          let problem_name := normalizeProblemKey problemKey
          match env.problems problem_name with
          | none =>
            (Except.error (PyErr.httpError "400 Bad Request" "Invalid JSON."
              "Invalid problem name!"), [code_filename])
          | some problem =>
            match stageResources env problem_name problem.RESOURCES [] with
            | Except.error (e, staged) =>
              (Except.error e, code_filename :: staged)
            | Except.ok resources =>
              let test_cases :=
                (generateTestCases problem.generate_input
                  problem.TEST_CASE_TYPE_ENUM env.rng0).1
              let num_cases := test_cases.length
              let run := env.runners (runnerFor language) container_name code_filename
              let st0 : LoopState :=
                { staged := resources, num_passes := 0, details := [] }
              match runCases env run problem.verify_user_solution test_cases st0 with
              | Except.error (e, st) =>
                (Except.error e, code_filename :: st.staged)
              | Except.ok st =>
                let resp : Response :=
                  { success := st.num_passes == num_cases
                    numTestCases := num_cases
                    numTestCasesPassed := st.num_passes
                    testCaseDetails := st.details }
                (Except.ok resp, [])

/-!
Auxiliary lemmas about the embedded pipeline, shared by the claim theorems.
-/

/-- Correspondence between a test case and the detail record the loop body
builds for it (`api.py` lines 124-132). -/
def caseMatches (run : List String → Except String (String × String))
    (verify : List String → String → Except String Bool)
    (tc : TestCase) (d : CaseDetail) : Prop :=
  d.testCaseType = tc.test_type.test_name ∧
  d.inputString = strTuple tc.inputTuple ∧
  d.inputDict = tc.input ∧
  d.outputDict = tc.output ∧
  run tc.inputTuple = Except.ok (d.outputString, d.processInfo) ∧
  verify tc.inputTuple d.outputString = Except.ok d.passed

theorem stageOnDemand_ok (env : Env) (tc : TestCase) (st st1 : LoopState)
    (h : stageOnDemand env tc st = Except.ok st1) :
    st1.details = st.details ∧ st1.num_passes = st.num_passes := by
  unfold stageOnDemand at h
  split at h
  · split at h
    · cases h; exact ⟨rfl, rfl⟩
    · dsimp only at h
      split at h
      · cases h; exact ⟨rfl, rfl⟩
      · cases h
  · cases h; exact ⟨rfl, rfl⟩

theorem runCase_ok (env : Env)
    (run : List String → Except String (String × String))
    (verify : List String → String → Except String Bool)
    (tc : TestCase) (st st' : LoopState)
    (h : runCase env run verify tc st = Except.ok st') :
    ∃ d : CaseDetail,
      st'.details = st.details ++ [d] ∧
      caseMatches run verify tc d ∧
      st'.num_passes = st.num_passes + (if d.passed then 1 else 0) := by
  unfold runCase at h
  split at h
  · cases h
  · rename_i st1 hstage
    obtain ⟨hd1, hn1⟩ := stageOnDemand_ok env tc st st1 hstage
    dsimp only at h
    split at h
    · cases h
    · rename_i user_answer process_info hrun
      split at h
      · cases h
      · rename_i passed hverify
        cases h
        refine ⟨{ testCaseType := tc.test_type.test_name,
                  inputString := strTuple tc.inputTuple,
                  outputString := user_answer,
                  inputDict := tc.input,
                  outputDict := tc.output,
                  passed := passed,
                  processInfo := process_info }, ?_, ?_, ?_⟩
        · simpa using hd1
        · exact ⟨rfl, rfl, rfl, rfl, hrun, hverify⟩
        · simp only [hn1]
          by_cases hp : passed = true
          · simp [hp]
          · simp [hp]

theorem runCases_ok (env : Env)
    (run : List String → Except String (String × String))
    (verify : List String → String → Except String Bool) :
    ∀ (tcs : List TestCase) (st st' : LoopState),
    runCases env run verify tcs st = Except.ok st' →
    ∃ ds : List CaseDetail,
      st'.details = st.details ++ ds ∧
      List.Forall₂ (caseMatches run verify) tcs ds ∧
      st'.num_passes = st.num_passes + ds.countP (fun d => d.passed) := by
  intro tcs
  induction tcs with
  | nil =>
    intro st st' h
    unfold runCases at h
    cases h
    exact ⟨[], by simp, List.Forall₂.nil, by simp⟩
  | cons tc rest ih =>
    intro st st' h
    unfold runCases at h
    split at h
    · cases h
    · rename_i st1 hcase
      obtain ⟨d, hd, hm, hn⟩ := runCase_ok env run verify tc st st1 hcase
      obtain ⟨ds, hds, hms, hns⟩ := ih st1 st' h
      refine ⟨d :: ds, ?_, List.Forall₂.cons hm hms, ?_⟩
      · simp [hds, hd]
      · rw [hns, hn, List.countP_cons]
        by_cases hp : d.passed = true
        · simp [hp]
          omega
        · simp [hp]

theorem genRep_length (gen : TestCaseType → Nat → TestCase × Nat)
    (t : TestCaseType) :
    ∀ (n : Nat) (s : Nat), (genRep gen t n s).1.length = n := by
  intro n
  induction n with
  | zero => intro s; simp [genRep]
  | succ k ih => intro s; simp [genRep, ih]

theorem generateTestCases_length (gen : TestCaseType → Nat → TestCase × Nat) :
    ∀ (enum : List TestCaseType) (s : Nat),
    (generateTestCases gen enum s).1.length =
      (enum.map TestCaseType.multiplicity).sum := by
  intro enum
  induction enum with
  | nil => intro s; simp [generateTestCases]
  | cons t rest ih =>
    intro s
    simp [generateTestCases, genRep_length, ih]

/-- Inversion of a successful `on_post` run: the payload fields were
present, the problem was found, initial resources staged, and the response
was assembled from the final loop state over the generated cases, with the
cleanup pass leaving no staged file behind. -/
theorem on_post_ok (env : Env) (container_name : String) (payload : Dict)
    (resp : Response) (rem : List String)
    (h : on_post env container_name payload = (Except.ok resp, rem)) :
    ∃ (code language code_filename problemKey : String) (problem : Problem)
      (resources : List String) (st : LoopState),
      payload.lookup "code" = some code ∧
      payload.lookup "language" = some language ∧
      write_code_to_file env code language = Except.ok code_filename ∧
      payload.lookup "problem" = some problemKey ∧
      env.problems (normalizeProblemKey problemKey) = some problem ∧
      stageResources env (normalizeProblemKey problemKey) problem.RESOURCES []
        = Except.ok resources ∧
      runCases env
        (env.runners RunnerKind.python container_name code_filename)
        problem.verify_user_solution
        (generateTestCases problem.generate_input
          problem.TEST_CASE_TYPE_ENUM env.rng0).1
        { staged := resources, num_passes := 0, details := [] }
        = Except.ok st ∧
      resp =
        { success := st.num_passes ==
            (generateTestCases problem.generate_input
              problem.TEST_CASE_TYPE_ENUM env.rng0).1.length
          numTestCases :=
            (generateTestCases problem.generate_input
              problem.TEST_CASE_TYPE_ENUM env.rng0).1.length
          numTestCasesPassed := st.num_passes
          testCaseDetails := st.details } ∧
      rem = [] := by
  unfold on_post at h
  split at h
  · cases h
  · rename_i code hcode
    split at h
    · cases h
    · rename_i language hlang
      split at h
      · cases h
      · rename_i code_filename hwrite
        split at h
        · cases h
        · rename_i problemKey hprob
          dsimp only at h
          split at h
          · cases h
          · rename_i problem hfound
            split at h
            · cases h
            · rename_i resources hstage
              split at h
              · cases h
              · rename_i st hcases
                cases h
                exact ⟨code, language, code_filename, problemKey, problem,
                  resources, st, hcode, hlang, hwrite, hprob, hfound, hstage,
                  hcases, rfl, rfl⟩

/-!
Concrete fixtures: a small problem and environments used to exercise the
pipeline on closed inputs.
-/

/-- A test case type table entry used by the concrete fixtures. -/
def sampleType : TestCaseType := { test_name := "SMALL", multiplicity := 2 }

/-- A concrete problem whose generator consumes the ambient generator
state: each call reads the state `s` into the case and advances it. -/
def sampleProblem : Problem :=
  { TEST_CASE_TYPE_ENUM := [sampleType]
    RESOURCES := ["data.txt"]
    generate_input := fun t s =>
      ({ test_type := t
         input := [("n", toString s)]
         output := [("ans", toString (s + s))]
         inputTuple := [toString s] }, s + 1)
    verify_user_solution := fun _ ans => Except.ok (ans == "42") }

/-- A benign environment: everything resolves, every copy succeeds, the
python runner answers `42`, and the verifier accepts exactly `42`. -/
def envW : Env :=
  { b64decode := fun s => Except.ok s
    write_str_to_file := fun _ ext =>
      match ext with
      | some e => "/tmp/code" ++ e
      | none => "/tmp/code"
    copy_ok := fun _ _ => true
    problems := fun name => if name = "sum_two" then some sampleProblem else none
    runners := fun k _ _ _ =>
      match k with
      | RunnerKind.python => Except.ok ("42", "exit 0")
      | _ => Except.error "runner not installed"
    rng0 := 0 }

/-- The happy-path payload. -/
def payloadW : Dict :=
  [("code", "cHJpbnQoNDIp"), ("language", "python3"), ("problem", "sum-two")]
/-- The report produced by `on_post` on `envW` and `payloadW`. -/
def respW : Response :=
  { success := true
    numTestCases := 2
    numTestCasesPassed := 2
    testCaseDetails :=
      [{ testCaseType := "SMALL", inputString := "(0)", outputString := "42",
         inputDict := [("n", "0")], outputDict := [("ans", "0")],
         passed := true, processInfo := "exit 0" },
       { testCaseType := "SMALL", inputString := "(1)", outputString := "42",
         inputDict := [("n", "1")], outputDict := [("ans", "2")],
         passed := true, processInfo := "exit 0" }] }

/-- Like `sampleProblem`, but the verifier raises on every case. -/
def abortProblem : Problem :=
  { TEST_CASE_TYPE_ENUM := [sampleType]
    RESOURCES := ["data.txt"]
    generate_input := sampleProblem.generate_input
    verify_user_solution := fun _ _ => Except.error "verifier crashed" }

/-- `envW` with the raising verifier installed under the same problem key. -/
def envAbort : Env :=
  { envW with problems := fun name =>
      if name = "sum_two" then some abortProblem else none }

/-- A problem whose every generated case demands the on-demand resource
`big.csv` and whose verifier is total. -/
def dataProblem : Problem :=
  { TEST_CASE_TYPE_ENUM := [sampleType]
    RESOURCES := []
    generate_input := fun t s =>
      ({ test_type := t
         input := [("dataset_filename", "big.csv")]
         output := []
         inputTuple := [] }, s)
    verify_user_solution := fun _ ans => Except.ok (ans == "42") }

/-- `envW` with `dataProblem` installed and the copy of `big.csv` failing
(every other copy succeeds). -/
def envData : Env :=
  { envW with
    problems := fun name => if name = "sum_two" then some dataProblem else none
    copy_ok := fun f _ => f != "/engine/../resources/big.csv" }

/-- `envW` with runners whose answers identify which toolchain ran. -/
def envMulti : Env :=
  { envW with
    runners := fun k _ _ _ =>
      match k with
      | RunnerKind.python => Except.ok ("python answer", "exit 0")
      | RunnerKind.javascript => Except.ok ("js answer", "exit 0")
      | RunnerKind.julia => Except.ok ("julia answer", "exit 0")
      | RunnerKind.c => Except.ok ("c answer", "exit 0") }

/-- `payloadW` with the language tag set to javascript. -/
def payloadJS : Dict :=
  [("code", "Y29kZQ=="), ("language", "javascript"), ("problem", "sum-two")]

/-- `envW` with a different ambient generator state at request time. -/
def envSeedB : Env := { envW with rng0 := 5 }

/-- A generator that ignores the ambient state entirely. -/
def genConst : TestCaseType → Nat → TestCase × Nat :=
  fun t s => ({ test_type := t, input := [], output := [], inputTuple := [] }, s)

/-- The first test case `sampleProblem` generates from ambient state 0. -/
def tc0W : TestCase :=
  { test_type := sampleType
    input := [("n", "0")]
    output := [("ans", "0")]
    inputTuple := ["0"] }

/-- The test case every `dataProblem` generation yields. -/
def tcData : TestCase :=
  { test_type := sampleType
    input := [("dataset_filename", "big.csv")]
    output := []
    inputTuple := [] }

/-- An empty initial loop state. -/
def st0W : LoopState := { staged := [], num_passes := 0, details := [] }

/-- Pointwise consequences of an in-order `Forall₂` correspondence. -/
theorem forall₂_map_eq {α β γ : Type} {R : α → β → Prop} {f : β → γ}
    {g : α → γ} (himp : ∀ a b, R a b → f b = g a) :
    ∀ {l₁ : List α} {l₂ : List β}, List.Forall₂ R l₁ l₂ →
      l₂.map f = l₁.map g := by
  intro l₁ l₂ h
  induction h with
  | nil => rfl
  | cons hab _ ih => simp [himp _ _ hab, ih]

instance {ε α : Type} [DecidableEq ε] [DecidableEq α] :
    DecidableEq (Except ε α) := fun x y =>
  match x, y with
  | Except.ok a, Except.ok b =>
    if h : a = b then isTrue (by rw [h])
    else isFalse (by intro he; cases he; exact h rfl)
  | Except.ok _, Except.error _ => isFalse (by intro he; cases he)
  | Except.error _, Except.ok _ => isFalse (by intro he; cases he)
  | Except.error e, Except.error f =>
    if h : e = f then isTrue (by rw [h])
    else isFalse (by intro he; cases he; exact h rfl)

/-!
Claim theorems.
-/

/-- C1: for every completed evaluation, the report's `success` field is
true iff every per-case entry of `testCaseDetails` has `passed = true`,
equivalently iff `numTestCasesPassed` equals `numTestCases`. -/
theorem C1_success_iff_all_passed (env : Env) (container_name : String)
    (payload : Dict) (resp : Response) (rem : List String)
    (h : on_post env container_name payload = (Except.ok resp, rem)) :
    (resp.success = true ↔ ∀ d ∈ resp.testCaseDetails, d.passed = true) ∧
    (resp.success = true ↔ resp.numTestCasesPassed = resp.numTestCases) := by
  obtain ⟨code, language, fn, pk, problem, res, st, hc, hl, hw, hp, hf, hs,
    hrc, hresp, hrem⟩ := on_post_ok env container_name payload resp rem h
  obtain ⟨ds, hds, hfa, hnp⟩ := runCases_ok _ _ _ _ _ _ hrc
  simp only [List.nil_append] at hds
  have hlen : ds.length =
      (generateTestCases problem.generate_input
        problem.TEST_CASE_TYPE_ENUM env.rng0).1.length :=
    (List.Forall₂.length_eq hfa).symm
  simp only [Nat.zero_add] at hnp
  subst hresp
  dsimp only
  constructor
  · rw [hds, hnp, beq_iff_eq, ← hlen]
    exact List.countP_eq_length (p := fun d => d.passed) (l := ds)
  · rw [beq_iff_eq]

/-- C1 witness: the biconditionals hold on the concrete happy-path run. -/
theorem C1_witness :
    (respW.success = true ↔ ∀ d ∈ respW.testCaseDetails, d.passed = true) ∧
    (respW.success = true ↔ respW.numTestCasesPassed = respW.numTestCases) :=
  C1_success_iff_all_passed envW "lovelace-1" payloadW respW [] (by decide)

/-- C2: for every evaluation whose problem is loaded, `numTestCases`
equals the sum of the multiplicities over the problem's test case type
table, and `testCaseDetails` has exactly that many entries. -/
theorem C2_case_count (env : Env) (container_name : String) (payload : Dict)
    (resp : Response) (rem : List String) (problemKey : String)
    (problem : Problem)
    (hpk : payload.lookup "problem" = some problemKey)
    (hpr : env.problems (normalizeProblemKey problemKey) = some problem)
    (h : on_post env container_name payload = (Except.ok resp, rem)) :
    resp.numTestCases =
      (problem.TEST_CASE_TYPE_ENUM.map TestCaseType.multiplicity).sum ∧
    resp.testCaseDetails.length = resp.numTestCases := by
  obtain ⟨code, language, fn, pk, problem', res, st, hc, hl, hw, hp, hf, hs,
    hrc, hresp, hrem⟩ := on_post_ok env container_name payload resp rem h
  have hk : problemKey = pk := Option.some.inj (hpk.symm.trans hp)
  subst hk
  have hq : problem = problem' := Option.some.inj (hpr.symm.trans hf)
  subst hq
  obtain ⟨ds, hds, hfa, hnp⟩ := runCases_ok _ _ _ _ _ _ hrc
  simp only [List.nil_append] at hds
  subst hresp
  dsimp only
  refine ⟨generateTestCases_length _ _ _, ?_⟩
  rw [hds]
  exact (List.Forall₂.length_eq hfa).symm

/-- C2 witness: on the happy-path run the count is the multiplicity sum. -/
theorem C2_witness :
    respW.numTestCases =
      (sampleProblem.TEST_CASE_TYPE_ENUM.map TestCaseType.multiplicity).sum ∧
    respW.testCaseDetails.length = respW.numTestCases :=
  C2_case_count envW "lovelace-1" payloadW respW [] "sum-two" sampleProblem
    (by decide) (by rfl) (by decide)

/-- C3 counterexample: with a verifier that raises, the evaluation aborts
and both the staged user code file and the copied problem resource are
still on disk when the handler exits — the removal pass did not run. -/
theorem C3_counterexample :
    (on_post envAbort "lovelace-1" payloadW).1 =
      Except.error (PyErr.verifierError "verifier crashed") ∧
    (on_post envAbort "lovelace-1" payloadW).2 =
      ["/tmp/code.py", "/engine/data.txt"] := by decide

/-- C3 amended: the staged-file removal pass runs exactly when the
pipeline completes without an exception; a completed evaluation leaves no
staged path behind. -/
theorem C3_cleanup_on_success (env : Env) (container_name : String)
    (payload : Dict) (resp : Response) (rem : List String)
    (h : on_post env container_name payload = (Except.ok resp, rem)) :
    rem = [] := by
  obtain ⟨_, _, _, _, _, _, _, _, _, _, _, _, _, _, _, hrem⟩ :=
    on_post_ok env container_name payload resp rem h
  exact hrem

/-- C3 witness: the happy-path run leaves no staged file behind. -/
theorem C3_witness : ([] : List String) = [] :=
  C3_cleanup_on_success envW "lovelace-1" payloadW respW [] (by decide)

/-- C4 counterexample: a verifier exception escapes the per-case loop and
the whole handler — the evaluation yields the raised error, not a report
in which the case is recorded as failed. -/
theorem C4_counterexample :
    (on_post envAbort "lovelace-1" payloadW).1 =
      Except.error (PyErr.verifierError "verifier crashed") := by decide

/-- C4 amended: when the verifier raises on a case (the runner having
returned normally and no on-demand resource being staged), the per-case
loop re-raises the error at that case: no detail record is appended and
the remaining cases are never executed. -/
theorem C4_verifier_error_propagates (env : Env)
    (run : List String → Except String (String × String))
    (verify : List String → String → Except String Bool)
    (tc : TestCase) (rest : List TestCase) (st : LoopState)
    (ans info m : String)
    (h1 : tc.input.lookup "dataset_filename" = none)
    (h2 : run tc.inputTuple = Except.ok (ans, info))
    (h3 : verify tc.inputTuple ans = Except.error m) :
    runCases env run verify (tc :: rest) st =
      Except.error (PyErr.verifierError m, st) := by
  simp [runCases, runCase, stageOnDemand, h1, h2, h3]

/-- C4 witness: the raising verifier aborts a concrete two-case loop. -/
theorem C4_witness :
    runCases envW (envW.runners RunnerKind.python "lovelace-1" "/tmp/code.py")
      abortProblem.verify_user_solution [tc0W, tc0W] st0W =
      Except.error (PyErr.verifierError "verifier crashed", st0W) :=
  C4_verifier_error_propagates envW _ _ tc0W [tc0W] st0W "42" "exit 0"
    "verifier crashed" (by decide) (by decide) (by decide)

/-- C5 counterexample: when copying the on-demand resource `big.csv` of
the first case fails, the evaluation aborts with the OSError — the
remaining case is not executed and no report is produced. -/
theorem C5_counterexample :
    (on_post envData "lovelace-1" payloadW).1 =
      Except.error (PyErr.osError "/engine/../resources/big.csv") := by decide

/-- C5 amended: a failure while staging a case's on-demand resource
re-raises at that case and aborts the whole loop: no detail record is
appended for that case and the remaining cases are never executed. -/
theorem C5_staging_failure_aborts (env : Env)
    (run : List String → Except String (String × String))
    (verify : List String → String → Except String Bool)
    (tc : TestCase) (rest : List TestCase) (st : LoopState) (r : String)
    (h1 : tc.input.lookup "dataset_filename" = some r)
    (h2 : ¬ r = "")
    (h3 : env.copy_ok (pjoin (pjoin (pjoin cwd "..") "resources") r)
        (pjoin cwd (os_basename (pjoin (pjoin (pjoin cwd "..") "resources") r)))
        = false) :
    runCases env run verify (tc :: rest) st =
      Except.error
        (PyErr.osError (pjoin (pjoin (pjoin cwd "..") "resources") r), st) := by
  simp [runCases, runCase, stageOnDemand, h1, h2, h3]

/-- C5 witness: the failing copy aborts a concrete two-case loop. -/
theorem C5_witness :
    runCases envData
      (envData.runners RunnerKind.python "lovelace-1" "/tmp/code.py")
      dataProblem.verify_user_solution [tcData, tcData] st0W =
      Except.error (PyErr.osError "/engine/../resources/big.csv", st0W) :=
  C5_staging_failure_aborts envData _ _ tcData [tcData] st0W "big.csv"
    (by decide) (by decide) (by decide)

/-- C6 counterexample: under runners whose answers identify the toolchain,
a javascript submission and a python3 submission both come back with the
Python runner's answer on every case — submissions with different language
tags are all run by the same language's toolchain. -/
theorem C6_counterexample :
    ((on_post envMulti "lovelace-1" payloadJS).1.toOption.map
      (fun r => r.testCaseDetails.map CaseDetail.outputString))
        = some ["python answer", "python answer"] ∧
    ((on_post envMulti "lovelace-1" payloadW).1.toOption.map
      (fun r => r.testCaseDetails.map CaseDetail.outputString))
        = some ["python answer", "python answer"] := by decide

/-- C7: the per-case detail records of a completed evaluation line up, in
order and field by field, with the list produced by the generation phase,
which itself traverses the type table in declared order invoking the
generator `multiplicity` times per type — generation order = execution
order = result order. -/
theorem C7_result_order (env : Env) (container_name : String)
    (payload : Dict) (resp : Response) (rem : List String)
    (problemKey : String) (problem : Problem)
    (hpk : payload.lookup "problem" = some problemKey)
    (hpr : env.problems (normalizeProblemKey problemKey) = some problem)
    (h : on_post env container_name payload = (Except.ok resp, rem)) :
    resp.testCaseDetails.map CaseDetail.testCaseType =
      (generateTestCases problem.generate_input
        problem.TEST_CASE_TYPE_ENUM env.rng0).1.map
        (fun tc => tc.test_type.test_name) ∧
    resp.testCaseDetails.map CaseDetail.inputString =
      (generateTestCases problem.generate_input
        problem.TEST_CASE_TYPE_ENUM env.rng0).1.map
        (fun tc => strTuple tc.inputTuple) ∧
    resp.testCaseDetails.map CaseDetail.inputDict =
      (generateTestCases problem.generate_input
        problem.TEST_CASE_TYPE_ENUM env.rng0).1.map TestCase.input ∧
    resp.testCaseDetails.map CaseDetail.outputDict =
      (generateTestCases problem.generate_input
        problem.TEST_CASE_TYPE_ENUM env.rng0).1.map TestCase.output := by
  obtain ⟨code, language, fn, pk, problem', res, st, hc, hl, hw, hp, hf, hs,
    hrc, hresp, hrem⟩ := on_post_ok env container_name payload resp rem h
  have hk : problemKey = pk := Option.some.inj (hpk.symm.trans hp)
  subst hk
  have hq : problem = problem' := Option.some.inj (hpr.symm.trans hf)
  subst hq
  obtain ⟨ds, hds, hfa, hnp⟩ := runCases_ok _ _ _ _ _ _ hrc
  simp only [List.nil_append] at hds
  subst hresp
  dsimp only
  rw [hds]
  refine ⟨?_, ?_, ?_, ?_⟩
  · exact forall₂_map_eq (fun tc d hm => hm.1) hfa
  · exact forall₂_map_eq (fun tc d hm => hm.2.1) hfa
  · exact forall₂_map_eq (fun tc d hm => hm.2.2.1) hfa
  · exact forall₂_map_eq (fun tc d hm => hm.2.2.2.1) hfa

/-- C7 witness: the order correspondence on the concrete happy-path run. -/
theorem C7_witness :
    respW.testCaseDetails.map CaseDetail.testCaseType =
      (generateTestCases sampleProblem.generate_input
        sampleProblem.TEST_CASE_TYPE_ENUM envW.rng0).1.map
        (fun tc => tc.test_type.test_name) ∧
    respW.testCaseDetails.map CaseDetail.inputString =
      (generateTestCases sampleProblem.generate_input
        sampleProblem.TEST_CASE_TYPE_ENUM envW.rng0).1.map
        (fun tc => strTuple tc.inputTuple) ∧
    respW.testCaseDetails.map CaseDetail.inputDict =
      (generateTestCases sampleProblem.generate_input
        sampleProblem.TEST_CASE_TYPE_ENUM envW.rng0).1.map TestCase.input ∧
    respW.testCaseDetails.map CaseDetail.outputDict =
      (generateTestCases sampleProblem.generate_input
        sampleProblem.TEST_CASE_TYPE_ENUM envW.rng0).1.map TestCase.output :=
  C7_result_order envW "lovelace-1" payloadW respW [] "sum-two" sampleProblem
    (by decide) (by rfl) (by decide)

/-- C8 counterexample: a payload with no `code` field makes the handler
raise `KeyError: code` before anything is staged — it is not converted to
an HTTP 400 error naming MissingCode. -/
theorem C8_counterexample :
    on_post envW "lovelace-1" [("language", "python3"), ("problem", "sum-two")]
      = (Except.error (PyErr.keyError "code"), []) := by decide

/-- C8 amended: a payload with no `code` field raises a bare KeyError,
while an empty `code` value raises HTTP 400 with title `Invalid JSON.` and
description `No code provided in request.`; in both situations no code is
staged and no case is executed. -/
theorem C8_missing_or_empty_code (env : Env) (container_name : String)
    (p1 p2 : Dict) (lang : String)
    (h1 : p1.lookup "code" = none)
    (h2 : p2.lookup "code" = some "")
    (h3 : p2.lookup "language" = some lang) :
    on_post env container_name p1 =
      (Except.error (PyErr.keyError "code"), []) ∧
    on_post env container_name p2 =
      (Except.error (PyErr.httpError "400 Bad Request" "Invalid JSON."
        "No code provided in request."), []) := by
  constructor
  · simp [on_post, h1]
  · simp [on_post, h2, h3, write_code_to_file]

/-- C8 witness: concrete payloads without and with an empty code field. -/
theorem C8_witness :
    on_post envW "lovelace-1" [("language", "python3")] =
      (Except.error (PyErr.keyError "code"), []) ∧
    on_post envW "lovelace-1" [("code", ""), ("language", "python3")] =
      (Except.error (PyErr.httpError "400 Bad Request" "Invalid JSON."
        "No code provided in request."), []) :=
  C8_missing_or_empty_code envW "lovelace-1" [("language", "python3")]
    [("code", ""), ("language", "python3")] "python3"
    (by decide) (by decide) (by decide)

/-- C9 counterexample: the generator is invoked with the test type only —
no seed is supplied — so two evaluations of the same submission from
different ambient generator states produce different `inputDict` values. -/
theorem C9_counterexample :
    ((on_post envW "lovelace-1" payloadW).1.toOption.map
      (fun r => r.testCaseDetails.map CaseDetail.inputDict))
        = some [[("n", "0")], [("n", "1")]] ∧
    ((on_post envSeedB "lovelace-1" payloadW).1.toOption.map
      (fun r => r.testCaseDetails.map CaseDetail.inputDict))
        = some [[("n", "5")], [("n", "6")]] := by decide

theorem genRep_state_blind (gen : TestCaseType → Nat → TestCase × Nat)
    (hgen : ∀ t s s', (gen t s).1 = (gen t s').1) (t : TestCaseType) :
    ∀ (n : Nat) (s s' : Nat), (genRep gen t n s).1 = (genRep gen t n s').1 := by
  intro n
  induction n with
  | zero => intro s s'; rfl
  | succ k ih =>
    intro s s'
    rcases hgs : gen t s with ⟨a, s1⟩
    rcases hgs' : gen t s' with ⟨b, s2⟩
    have hab : a = b := by
      have hg := hgen t s s'
      rw [hgs, hgs'] at hg
      exact hg
    simp [genRep, hgs, hgs', hab, ih s1 s2]

/-- C9 amended: the generation phase passes only the test type to the
generator and depends on the ambient generator state; the generated list
is identical across runs exactly when the generator's output ignores that
state — runs seeded differently need not agree, as no seed is supplied by
the orchestrator. -/
theorem C9_generation_state_dependence
    (gen : TestCaseType → Nat → TestCase × Nat)
    (hgen : ∀ t s s', (gen t s).1 = (gen t s').1) :
    ∀ (enum : List TestCaseType) (s s' : Nat),
      (generateTestCases gen enum s).1 = (generateTestCases gen enum s').1 := by
  intro enum
  induction enum with
  | nil => intro s s'; rfl
  | cons t rest ih =>
    intro s s'
    rcases hg : genRep gen t t.multiplicity s with ⟨cs, s1⟩
    rcases hg' : genRep gen t t.multiplicity s' with ⟨cs', s2⟩
    have hcs : cs = cs' := by
      have hb := genRep_state_blind gen hgen t t.multiplicity s s'
      rw [hg, hg'] at hb
      exact hb
    simp [generateTestCases, hg, hg', hcs, ih s1 s2]

/-- C9 amended witness: a state-blind generator yields identical case
lists from two different ambient states. -/
theorem C9_witness :
    (generateTestCases genConst [sampleType] 0).1 =
      (generateTestCases genConst [sampleType] 7).1 :=
  C9_generation_state_dependence genConst (fun _ _ _ => rfl) [sampleType] 0 7

/-- C10: in each per-case detail record, `outputString` and `processInfo`
are exactly what the runner returned for that case's input tuple, while
`outputDict` is the problem's reference output carried by the generated
test case (and `inputDict` its input) — not derived from the user's
answer. -/
theorem C10_output_fields (env : Env)
    (run : List String → Except String (String × String))
    (verify : List String → String → Except String Bool)
    (tc : TestCase) (st st' : LoopState)
    (h : runCase env run verify tc st = Except.ok st') :
    ∃ d ans info,
      st'.details = st.details ++ [d] ∧
      run tc.inputTuple = Except.ok (ans, info) ∧
      d.outputString = ans ∧
      d.processInfo = info ∧
      d.outputDict = tc.output ∧
      d.inputDict = tc.input := by
  obtain ⟨d, hd, hm, _⟩ := runCase_ok env run verify tc st st' h
  exact ⟨d, d.outputString, d.processInfo, hd, hm.2.2.2.2.1, rfl, rfl,
    hm.2.2.2.1, hm.2.2.1⟩

/-- The loop state after running the first happy-path case. -/
def stOutW : LoopState :=
  { staged := []
    num_passes := 1
    details :=
      [{ testCaseType := "SMALL", inputString := "(0)", outputString := "42",
         inputDict := [("n", "0")], outputDict := [("ans", "0")],
         passed := true, processInfo := "exit 0" }] }

/-- C10 witness: the concrete first happy-path case. -/
theorem C10_witness :
    ∃ d ans info,
      stOutW.details = st0W.details ++ [d] ∧
      envW.runners RunnerKind.python "lovelace-1" "/tmp/code.py"
        tc0W.inputTuple = Except.ok (ans, info) ∧
      d.outputString = ans ∧
      d.processInfo = info ∧
      d.outputDict = tc0W.output ∧
      d.inputDict = tc0W.input :=
  C10_output_fields envW
    (envW.runners RunnerKind.python "lovelace-1" "/tmp/code.py")
    sampleProblem.verify_user_solution tc0W st0W stOutW (by decide)

theorem forall₂_mem_right {α β : Type} {R : α → β → Prop} :
    ∀ {l₁ : List α} {l₂ : List β}, List.Forall₂ R l₁ l₂ →
      ∀ b ∈ l₂, ∃ a, a ∈ l₁ ∧ R a b := by
  intro l₁ l₂ h
  induction h with
  | nil => intro b hb; cases hb
  | cons hab _ ih =>
    intro b hb
    rcases List.mem_cons.mp hb with hb1 | hb2
    · subst hb1
      exact ⟨_, List.mem_cons_self _ _, hab⟩
    · obtain ⟨a, ha, hr⟩ := ih b hb2
      exact ⟨a, List.mem_cons_of_mem _ ha, hr⟩

/-- C6 amended: whatever the payload's language tag, every per-case
output recorded by a completed evaluation was produced by the Python
runner (`runnerFor` is constantly `RunnerKind.python`, mirroring the
unconditional `PythonRunner()` instantiation); the language tag is
consulted only for the `{python3: .py}` extension table inside
`write_code_to_file`. -/
theorem C6_python_runner_only (env : Env) (container_name : String)
    (payload : Dict) (resp : Response) (rem : List String)
    (h : on_post env container_name payload = (Except.ok resp, rem)) :
    ∃ code_filename : String, ∀ d ∈ resp.testCaseDetails,
      ∃ t : List String,
        env.runners (runnerFor "any language tag") container_name
          code_filename t = Except.ok (d.outputString, d.processInfo) := by
  obtain ⟨code, language, fn, pk, problem, res, st, hc, hl, hw, hp, hf, hs,
    hrc, hresp, hrem⟩ := on_post_ok env container_name payload resp rem h
  obtain ⟨ds, hds, hfa, hnp⟩ := runCases_ok _ _ _ _ _ _ hrc
  simp only [List.nil_append] at hds
  subst hresp
  refine ⟨fn, ?_⟩
  dsimp only
  rw [hds]
  intro d hd
  obtain ⟨tc, _, hm⟩ := forall₂_mem_right hfa d hd
  exact ⟨tc.inputTuple, hm.2.2.2.2.1⟩

/-- The report produced for the javascript-tagged payload under
`envMulti`: the Python runner's answer appears on every case. -/
def respJS : Response :=
  { success := false
    numTestCases := 2
    numTestCasesPassed := 0
    testCaseDetails :=
      [{ testCaseType := "SMALL", inputString := "(0)",
         outputString := "python answer", inputDict := [("n", "0")],
         outputDict := [("ans", "0")], passed := false,
         processInfo := "exit 0" },
       { testCaseType := "SMALL", inputString := "(1)",
         outputString := "python answer", inputDict := [("n", "1")],
         outputDict := [("ans", "2")], passed := false,
         processInfo := "exit 0" }] }

/-- C6 witness: the javascript submission's outputs all come from the
Python runner. -/
theorem C6_witness :
    ∃ code_filename : String, ∀ d ∈ respJS.testCaseDetails,
      ∃ t : List String,
        envMulti.runners (runnerFor "any language tag") "lovelace-1"
          code_filename t = Except.ok (d.outputString, d.processInfo) :=
  C6_python_runner_only envMulti "lovelace-1" payloadJS respJS [] (by decide)
